import Mathlib

/-!
Shallow embedding of `src/Mission Control/competition_tasks/src/bouyTask.py`
(SeadragonAUV buoy-task state machine).

Python floats (ROS `Float64` values) are modelled as rationals `ℚ`; the
`Int16` thrust command is modelled as `ℤ` (all values stay far inside the
int16 range).  Publishing on a ROS topic is modelled by returning a list of
`Cmd` values; the mutable object state of each smach state class is a Lean
structure, and each `execute` method is a function from the structure to an
outcome, the updated structure, and the list of published commands.

Note on line 96 of the source: `execute` of `TrackObjectState` ends in a bare
`elif` with no condition before `return 'notcompleted'`.  An `elif` without a
condition has no Python semantics; the only reading consistent with the
declared outcome list is `else`, and the embedding uses that reading.
-/

/-- `CAMERA_WIDTH = 400` (bouyTask.py line 9). -/
def CAMERA_WIDTH : ℚ := 400

/-- `CAMERA_HEIGHT = 300` (line 10). -/
def CAMERA_HEIGHT : ℚ := 300

/-- `CENTER_PADDING_X = 5` (line 11). -/
def CENTER_PADDING_X : ℚ := 5

/-- `CENTER_PADDING_Y = 5` (line 12). -/
def CENTER_PADDING_Y : ℚ := 5

/-- `YAW_INCREASE = 0.017` radians (line 13). -/
def YAW_INCREASE : ℚ := 17/1000

/-- `DEPTH_STEP = 1` (line 14). -/
def DEPTH_STEP : ℚ := 1

/-- `FORWARD_THRUST_INCREASE = 1` (line 15). -/
def FORWARD_THRUST_INCREASE : ℤ := 1

/-- `AREA_THRESHOLD_LOW = 0.85` (line 16). -/
def AREA_THRESHOLD_LOW : ℚ := 85/100

/-- `AREA_THRESHOLD_HIGH = 0.90` (line 17). -/
def AREA_THRESHOLD_HIGH : ℚ := 90/100

/-- `MAX_FORWARD_THRUST = 280` (line 19). -/
def MAX_FORWARD_THRUST : ℤ := 280

/-- A message published on an actuator topic: yaw setpoint (`Float64`),
depth setpoint (`Float64`), or forward-thrust command (`Int16`). -/
inductive Cmd where
  | yawSetpoint (v : ℚ)
  | depthSetpoint (v : ℚ)
  | thrust (v : ℤ)
deriving DecidableEq, Repr

/-- `true` when the list contains a forward-thrust command. -/
def hasThrustCmd (cs : List Cmd) : Bool :=
  cs.any fun c => match c with
    | Cmd.thrust _ => true
    | _ => false

/-- Mutable fields of `TrackObjectState` (lines 38-64): sensor caches written
by subscriber callbacks, the per-state tick counter `timer`, the stored
forward thrust, and the reset flag.  `yoffset` is the constructor argument. -/
structure TrackObjectState where
  yoffset : ℚ
  timer : ℕ
  object_x : ℚ
  object_y : ℚ
  object_area : ℚ
  yaw_current : ℚ
  depth_current : ℚ
  forward_thrust : ℤ
  has_reset : Bool
deriving DecidableEq, Repr

namespace TrackObjectState

/-- `TrackObjectState.__init__` (lines 39-64): every mutable field starts at
zero / `False`; `yoffset` is the constructor argument. -/
def init (yoffset : ℚ) : TrackObjectState :=
  { yoffset := yoffset,
    timer := 0,
    object_x := 0,
    object_y := 0,
    object_area := 0,
    yaw_current := 0,
    depth_current := 0,
    forward_thrust := 0,
    has_reset := false }

/-- `resetValues` (lines 99-107): zero every mutable field. -/
def resetValues (s : TrackObjectState) : TrackObjectState :=
  { s with
      object_x := 0,
      object_y := 0,
      object_area := 0,
      yaw_current := 0,
      depth_current := 0,
      forward_thrust := 0,
      has_reset := false,
      timer := 0 }

/-- `adjust_yaw` (lines 110-122): returns whether the object is horizontally
centered, publishing a one-increment yaw setpoint when it is not. -/
def adjust_yaw (s : TrackObjectState) : Bool × List Cmd :=
  if s.object_x > CAMERA_WIDTH/2 + CENTER_PADDING_X then
    (false, [Cmd.yawSetpoint (s.yaw_current - YAW_INCREASE)])
  else if s.object_x < CAMERA_WIDTH/2 - CENTER_PADDING_X then
    (false, [Cmd.yawSetpoint (s.yaw_current + YAW_INCREASE)])
  else
    (true, [])

/-- `adjust_depth` (lines 124-136): returns whether the object is vertically
centered (against the offset center), publishing a one-step depth setpoint
when it is not. -/
def adjust_depth (s : TrackObjectState) : Bool × List Cmd :=
  if s.object_y > CAMERA_HEIGHT/2 + s.yoffset + CENTER_PADDING_Y then
    (false, [Cmd.depthSetpoint (s.depth_current + DEPTH_STEP)])
  else if s.object_y < CAMERA_HEIGHT/2 + s.yoffset - CENTER_PADDING_Y then
    (false, [Cmd.depthSetpoint (s.depth_current - DEPTH_STEP)])
  else
    (true, [])

/-- The clamp inlined in `change_forward_thrust` (lines 156-159). -/
def clampThrust (x : ℤ) : ℤ :=
  if x > MAX_FORWARD_THRUST then MAX_FORWARD_THRUST
  else if x < -MAX_FORWARD_THRUST then -MAX_FORWARD_THRUST
  else x

/-- `change_forward_thrust` (lines 149-164): a no-op unless the tick counter
is a multiple of 200; otherwise add `amount`, clamp to
`[-MAX_FORWARD_THRUST, MAX_FORWARD_THRUST]`, store and publish the result. -/
def change_forward_thrust (s : TrackObjectState) (amount : ℤ) :
    TrackObjectState × List Cmd :=
  if s.timer % 200 ≠ 0 then
    (s, [])
  else
    let ft := clampThrust (s.forward_thrust + amount)
    ({ s with forward_thrust := ft }, [Cmd.thrust ft])

/-- `adjust_position` (lines 138-147): compare the area fraction
`object_area / (CAMERA_WIDTH*CAMERA_HEIGHT)` against the two thresholds and
request a thrust increase / decrease, or report the distance in range. -/
def adjust_position (s : TrackObjectState) : Bool × TrackObjectState × List Cmd :=
  if s.object_area / (CAMERA_WIDTH*CAMERA_HEIGHT) < AREA_THRESHOLD_LOW then
    (false, s.change_forward_thrust FORWARD_THRUST_INCREASE)
  else if s.object_area / (CAMERA_WIDTH*CAMERA_HEIGHT) > AREA_THRESHOLD_HIGH then
    (false, s.change_forward_thrust (-FORWARD_THRUST_INCREASE))
  else
    (true, s, [])

end TrackObjectState

/-- Outcomes registered by `TrackObjectState.__init__` (line 40). -/
inductive TrackOutcome where
  | completed
  | notcompleted
  | reset
deriving DecidableEq, Repr

namespace TrackObjectState

/-- `TrackObjectState.execute` (lines 79-97): increment the tick counter;
on reset, zero everything and return `reset`; otherwise run the yaw and depth
axes, run the distance axis only when both are centered, and return
`completed` exactly when all three are satisfied (zeroing everything first),
`notcompleted` otherwise (bare `elif` on line 96 read as `else`). -/
def execute (s : TrackObjectState) : TrackOutcome × TrackObjectState × List Cmd :=
  let s := { s with timer := s.timer + 1 }
  if s.has_reset then
    (TrackOutcome.reset, s.resetValues, [])
  else
    let xres := s.adjust_yaw
    let yres := s.adjust_depth
    if xres.1 && yres.1 then
      let ares := s.adjust_position
      if ares.1 then
        (TrackOutcome.completed, ares.2.1.resetValues, xres.2 ++ yres.2 ++ ares.2.2)
      else
        (TrackOutcome.notcompleted, ares.2.1, xres.2 ++ yres.2 ++ ares.2.2)
    else
      (TrackOutcome.notcompleted, s, xres.2 ++ yres.2)

end TrackObjectState

/-- One tick's worth of sensor values for `TrackObjectState`: what the
subscriber callbacks (lines 66-77) may have written before `execute` runs. -/
structure SensorInput where
  object_x : ℚ
  object_y : ℚ
  object_area : ℚ
  yaw_current : ℚ
  depth_current : ℚ
  has_reset : Bool
deriving DecidableEq, Repr

/-- Apply one tick's callback writes to the state (lines 66-77). -/
def TrackObjectState.setInput (s : TrackObjectState) (i : SensorInput) :
    TrackObjectState :=
  { s with
      object_x := i.object_x,
      object_y := i.object_y,
      object_area := i.object_area,
      yaw_current := i.yaw_current,
      depth_current := i.depth_current,
      has_reset := i.has_reset }

/-- Run `execute` once per input, collecting every published command. -/
def runTrack : TrackObjectState → List SensorInput → TrackObjectState × List Cmd
  | s, [] => (s, [])
  | s, i :: rest =>
      let r := (s.setInput i).execute
      let r2 := runTrack r.2.1 rest
      (r2.1, r.2.2 ++ r2.2)

/-- Run a sequence of `change_forward_thrust` calls: each request carries the
tick-counter value in force at the call and the signed amount requested. -/
def runThrustRequests : TrackObjectState → List (ℕ × ℤ) → TrackObjectState × List Cmd
  | s, [] => (s, [])
  | s, (t, a) :: rest =>
      let r := TrackObjectState.change_forward_thrust { s with timer := t } a
      let r2 := runThrustRequests r.1 rest
      (r2.1, r.2 ++ r2.2)

/-- Outcomes registered by `ChangeDepthState.__init__` (line 168). -/
inductive DepthOutcome where
  | done
  | notdone
  | reset
deriving DecidableEq, Repr

/-- Mutable fields of `ChangeDepthState` (lines 166-182).  The field `depth`
models the Python attribute `self.depth` read by `change_depth` (line 198):
no statement of the class ever assigns it, so in every state the program
constructs it is absent; we model the attribute as `Option ℚ`, `none` when
unset, and reading it when unset is Python's `AttributeError`. -/
structure ChangeDepthState where
  targetDepth : ℚ
  threshold : ℚ
  depth_current : ℚ
  has_reset : Bool
  depth : Option ℚ
deriving DecidableEq, Repr

namespace ChangeDepthState

/-- `ChangeDepthState.__init__` (lines 167-177): stores the target and
threshold, zeroes `depth_current`, clears the reset flag, and never assigns
`self.depth`. -/
def init (targetDepth threshold : ℚ) : ChangeDepthState :=
  { targetDepth := targetDepth,
    threshold := threshold,
    depth_current := 0,
    has_reset := false,
    depth := none }

/-- `change_depth` (lines 196-199): publish `self.depth + amount`.  Since
`self.depth` is never assigned, the attribute read fails (`AttributeError`),
modelled by `none`; `some` carries the published command when the attribute
were present. -/
def change_depth (s : ChangeDepthState) (amount : ℚ) : Option (List Cmd) :=
  match s.depth with
  | some d => some [Cmd.depthSetpoint (d + amount)]
  | none => none

/-- `ChangeDepthState.execute` (lines 184-194): `reset` on the reset flag;
one `DEPTH_STEP` adjustment and `notdone` outside the tolerance band; `done`
inside it.  `none` models the uncaught exception from `change_depth`. -/
def execute (s : ChangeDepthState) : Option (DepthOutcome × List Cmd) :=
  if s.has_reset then
    some (DepthOutcome.reset, [])
  else if s.depth_current > s.targetDepth + s.threshold then
    (s.change_depth DEPTH_STEP).map fun cs => (DepthOutcome.notdone, cs)
  else if s.depth_current < s.targetDepth - s.threshold then
    (s.change_depth (-DEPTH_STEP)).map fun cs => (DepthOutcome.notdone, cs)
  else
    some (DepthOutcome.done, [])

end ChangeDepthState

/-- Outcomes registered by `RotateYawState.__init__` (line 204). -/
inductive YawOutcome where
  | done
  | notdone
  | reset
deriving DecidableEq, Repr

/-- Mutable fields of `RotateYawState` (lines 202-219). -/
structure RotateYawState where
  yaw_target : ℚ
  yaw_variance : ℚ
  yaw_current : ℚ
  has_reset : Bool
deriving DecidableEq, Repr

namespace RotateYawState

/-- `RotateYawState.__init__` (lines 203-214). -/
def init (targetYaw threshold : ℚ) : RotateYawState :=
  { yaw_target := targetYaw,
    yaw_variance := threshold,
    yaw_current := 0,
    has_reset := false }

/-- `isYawOnTarget` (lines 233-234): the stub always reports off-target. -/
def isYawOnTarget (_ : RotateYawState) : Bool :=
  false

/-- `change_yaw` (lines 236-239).  Defined by the class but never called from
`execute` (the `else` branch on lines 229-231 only returns). -/
def change_yaw (_ : RotateYawState) (direction : ℚ) : List Cmd :=
  [Cmd.yawSetpoint (direction * YAW_INCREASE)]

/-- `resetValues` (lines 241-243): zero the two mutable sensor fields. -/
def resetValues (s : RotateYawState) : RotateYawState :=
  { s with yaw_current := 0, has_reset := false }

/-- `RotateYawState.execute` (lines 221-231): `reset` (after zeroing) on the
reset flag; `done` (after zeroing) when on target; otherwise return `notdone`
publishing nothing — the `else` branch contains only the return. -/
def execute (s : RotateYawState) : YawOutcome × RotateYawState × List Cmd :=
  if s.has_reset then
    (YawOutcome.reset, s.resetValues, [])
  else if s.isYawOnTarget then
    (YawOutcome.done, s.resetValues, [])
  else
    (YawOutcome.notdone, s, [])

end RotateYawState

/-- Run `RotateYawState.execute` once per input; each input carries the
yaw reading and reset flag the callbacks may have written before the tick.
Returns the outcomes in order. -/
def runYaw : RotateYawState → List (ℚ × Bool) → List YawOutcome
  | _, [] => []
  | s, (y, r) :: rest =>
      let s1 : RotateYawState := { s with yaw_current := y, has_reset := r }
      let res := s1.execute
      res.1 :: runYaw res.2.1 rest

/-- Outcomes registered by `StartState.__init__` (line 23). -/
inductive StartOutcome where
  | ready
  | notready
deriving DecidableEq, Repr

/-- Mutable field of `StartState` (lines 21-29). -/
structure StartState where
  torpedo_task_enabled : Bool
deriving DecidableEq, Repr

/-- `StartState.execute` (lines 31-36): consume the enable flag and return
`ready`, or return `notready`. -/
def StartState.execute (s : StartState) : StartOutcome × StartState :=
  if s.torpedo_task_enabled then
    (StartOutcome.ready, { torpedo_task_enabled := false })
  else
    (StartOutcome.notready, s)

/-- Outcomes registered by `ResetState.__init__` (line 247). -/
inductive ResetOutcome where
  | restart
  | stay
deriving DecidableEq, Repr

/-- `ResetState` (lines 245-261) has no live fields (its subscriber is
commented out). -/
structure ResetState where
deriving DecidableEq, Repr

/-- `ResetState.execute` (lines 255-261): unconditionally `restart`. -/
def ResetState.execute (_ : ResetState) : ResetOutcome :=
  ResetOutcome.restart

/-- The outcome labels `TrackObjectState.__init__` registers (line 40). -/
def trackObjectOutcomes : List String :=
  ["completed", "notcompleted", "reset"]

/-- The transition table wired in `main` (lines 297-325): for each registered
state label, the outcome-label-to-next-state mapping passed to
`smach.StateMachine.add`. -/
def transitionTable : List (String × List (String × String)) :=
  [ ("START", [("ready", "TRACK_FLAT"), ("notready", "START")]),
    ("TRACK_FLAT", [("done", "TOUCH_FLAT"), ("notdone", "TRACK_FLAT"), ("reset", "RESET")]),
    ("TOUCH_FLAT", [("done", "MOVE_BACK_1"), ("notdone", "TOUCH_FLAT"), ("reset", "RESET")]),
    ("MOVE_BACK_1", [("done", "MOVE_UP"), ("notdone", "MOVE_BACK_1"), ("reset", "RESET")]),
    ("MOVE_UP", [("done", "MOVE_FORWARD"), ("notdone", "MOVE_UP"), ("reset", "RESET")]),
    ("MOVE_FORWARD", [("done", "MOVE_DOWN"), ("notdone", "MOVE_FORWARD"), ("reset", "RESET")]),
    ("MOVE_DOWN", [("done", "TURN_AROUND"), ("notdone", "MOVE_DOWN"), ("reset", "RESET")]),
    ("TURN_AROUND", [("done", "TRACK_TRIANGLE"), ("notdone", "TURN_AROUND"), ("reset", "RESET")]),
    ("TRACK_TRIANGLE", [("done", "TOUCH_TRIANGLE"), ("notdone", "TRACK_TRIANGLE"), ("reset", "RESET")]),
    ("TOUCH_TRIANGLE", [("done", "MOVE_BACK_2"), ("notdone", "TOUCH_TRIANGLE"), ("reset", "RESET")]),
    ("MOVE_BACK_2", [("done", "FACE_TORPEDO_TASK"), ("notdone", "MOVE_BACK_2"), ("reset", "RESET")]),
    ("FACE_TORPEDO_TASK", [("done", "MOVE_TORPEDO_DEPTH"), ("notdone", "FACE_TORPEDO_TASK"), ("reset", "RESET")]),
    ("MOVE_TORPEDO_DEPTH", [("done", "START"), ("notdone", "MOVE_TORPEDO_DEPTH"), ("reset", "RESET")]),
    ("RESET", [("restart", "START"), ("stay", "RESET")]) ]

/-- Resolve a (state label, outcome label) pair through the transition table;
`none` is an undefined transition. -/
def lookupTransition (state outcome : String) : Option String :=
  (transitionTable.lookup state).bind fun ts => ts.lookup outcome

/-- `true` when every forward-thrust command in the list lies within
`[-MAX_FORWARD_THRUST, MAX_FORWARD_THRUST]`. -/
def thrustCmdsBounded (cs : List Cmd) : Bool :=
  cs.all fun c => match c with
    | Cmd.thrust v => decide (-MAX_FORWARD_THRUST ≤ v) && decide (v ≤ MAX_FORWARD_THRUST)
    | _ => true

/-- `true` when every outcome in the list is `notdone`. -/
def allNotdone (os : List YawOutcome) : Bool :=
  os.all fun o => match o with
    | YawOutcome.notdone => true
    | _ => false

theorem hasThrustCmd_append (xs ys : List Cmd) :
    hasThrustCmd (xs ++ ys) = (hasThrustCmd xs || hasThrustCmd ys) := by
  simp [hasThrustCmd]

theorem thrustCmdsBounded_append (xs ys : List Cmd) :
    thrustCmdsBounded (xs ++ ys) = (thrustCmdsBounded xs && thrustCmdsBounded ys) := by
  simp [thrustCmdsBounded]

theorem clampThrust_bounds (x : ℤ) :
    -MAX_FORWARD_THRUST ≤ TrackObjectState.clampThrust x ∧
      TrackObjectState.clampThrust x ≤ MAX_FORWARD_THRUST := by
  unfold TrackObjectState.clampThrust MAX_FORWARD_THRUST
  split_ifs <;> omega

/-- C1: the claim of transition-table totality fails on the code.
`TrackObjectState.__init__` registers the outcome labels `completed`,
`notcompleted`, `reset`, but `main` wires the `TRACK_FLAT` and
`TRACK_TRIANGLE` registrations with transitions keyed `done`, `notdone`,
`reset`: the pairs (TRACK_FLAT, completed), (TRACK_FLAT, notcompleted),
(TRACK_TRIANGLE, completed), (TRACK_TRIANGLE, notcompleted) resolve to
nothing, while the mismatched keys `done`/`notdone` are not labels the state
can return. -/
theorem transitionTable_track_outcomes_unmapped :
    "completed" ∈ trackObjectOutcomes ∧
    "notcompleted" ∈ trackObjectOutcomes ∧
    lookupTransition "TRACK_FLAT" "completed" = none ∧
    lookupTransition "TRACK_FLAT" "notcompleted" = none ∧
    lookupTransition "TRACK_TRIANGLE" "completed" = none ∧
    lookupTransition "TRACK_TRIANGLE" "notcompleted" = none ∧
    lookupTransition "TRACK_FLAT" "done" = some "TOUCH_FLAT" ∧
    ("done" ∈ trackObjectOutcomes) = False := by
  refine ⟨by decide, by decide, by decide, by decide, by decide, by decide, by decide, by decide⟩

/-- C6: evaluating `ChangeDepthState` at the configuration of `MOVE_UP`
(target 36 in, threshold 1 in).  Whenever the current depth is outside the
tolerance band and the reset flag is clear, `execute` calls `change_depth`,
which reads the never-assigned attribute `self.depth` — an `AttributeError`,
modelled as `none` — instead of publishing a one-`DEPTH_STEP` adjustment from
`depth_current`.  The in-band and reset branches, which never reach
`change_depth`, behave as the claim says. -/
theorem changeDepth_missing_attribute :
    ChangeDepthState.execute
      { targetDepth := 36, threshold := 1, depth_current := 40,
        has_reset := false, depth := none } = none ∧
    ChangeDepthState.execute
      { targetDepth := 36, threshold := 1, depth_current := 30,
        has_reset := false, depth := none } = none ∧
    (ChangeDepthState.init 36 1).depth = none ∧
    ChangeDepthState.execute
      { targetDepth := 36, threshold := 1, depth_current := 36,
        has_reset := false, depth := none } = some (DepthOutcome.done, []) ∧
    ChangeDepthState.execute
      { targetDepth := 36, threshold := 1, depth_current := 40,
        has_reset := true, depth := none } = some (DepthOutcome.reset, []) := by
  refine ⟨?_, ?_, rfl, ?_, rfl⟩ <;>
    norm_num [ChangeDepthState.execute, ChangeDepthState.change_depth]

/-- C7: evaluating `RotateYawState` at the configuration of `TURN_AROUND`
(target −1.59 rad, variance 0.1 rad).  On a non-reset, off-target step the
command list is empty — `execute`'s `else` branch only returns `notdone` and
never calls `change_yaw` — contradicting the claim that exactly one
directional yaw increment command is issued; the reset half of the claim
(zero the mutable fields, return `reset`) does hold. -/
theorem rotateYaw_notdone_no_command :
    (RotateYawState.init (-159/100) (1/10)).execute =
      (YawOutcome.notdone, RotateYawState.init (-159/100) (1/10), []) ∧
    RotateYawState.execute
      { yaw_target := -159/100, yaw_variance := 1/10, yaw_current := 2,
        has_reset := true } =
      (YawOutcome.reset,
        { yaw_target := -159/100, yaw_variance := 1/10, yaw_current := 0,
          has_reset := false }, []) := by
  exact ⟨rfl, rfl⟩

theorem clampThrust_of_ge (a : ℤ) (h : 0 ≤ a) :
    TrackObjectState.clampThrust (MAX_FORWARD_THRUST + a) = MAX_FORWARD_THRUST := by
  unfold TrackObjectState.clampThrust MAX_FORWARD_THRUST at *
  split_ifs <;> omega

theorem clampThrust_of_le (a : ℤ) (h : a ≤ 0) :
    TrackObjectState.clampThrust (-MAX_FORWARD_THRUST + a) = -MAX_FORWARD_THRUST := by
  unfold TrackObjectState.clampThrust MAX_FORWARD_THRUST at *
  split_ifs <;> omega

/-- C9: a set reset flag makes `TrackObjectState`, `ChangeDepthState` and
`RotateYawState` return `reset`; the table routes `reset` from each of their
registrations to `RESET`; `ResetState.execute` returns `restart`
unconditionally; and `RESET`/`restart` routes to `START`. -/
theorem reset_routes_to_start :
    (∀ s : TrackObjectState, s.has_reset = true →
      (s.execute).1 = TrackOutcome.reset) ∧
    (∀ s : ChangeDepthState, s.has_reset = true →
      s.execute = some (DepthOutcome.reset, [])) ∧
    (∀ s : RotateYawState, s.has_reset = true →
      (s.execute).1 = YawOutcome.reset) ∧
    lookupTransition "TRACK_FLAT" "reset" = some "RESET" ∧
    lookupTransition "MOVE_UP" "reset" = some "RESET" ∧
    lookupTransition "MOVE_DOWN" "reset" = some "RESET" ∧
    lookupTransition "TURN_AROUND" "reset" = some "RESET" ∧
    lookupTransition "TRACK_TRIANGLE" "reset" = some "RESET" ∧
    lookupTransition "FACE_TORPEDO_TASK" "reset" = some "RESET" ∧
    lookupTransition "MOVE_TORPEDO_DEPTH" "reset" = some "RESET" ∧
    (∀ r : ResetState, r.execute = ResetOutcome.restart) ∧
    lookupTransition "RESET" "restart" = some "START" := by
  refine ⟨?_, ?_, ?_, by decide, by decide, by decide, by decide, by decide,
    by decide, by decide, fun r => rfl, by decide⟩
  · intro s h
    simp [TrackObjectState.execute, h]
  · intro s h
    simp [ChangeDepthState.execute, h]
  · intro s h
    simp [RotateYawState.execute, h]

/-- Witness for C9 at concrete states with the reset flag set. -/
theorem reset_routes_to_start_witness :
    ((({ yoffset := 0, timer := 7, object_x := 1, object_y := 2,
         object_area := 3, yaw_current := 4, depth_current := 5,
         forward_thrust := 6, has_reset := true } : TrackObjectState).execute).1 =
      TrackOutcome.reset) ∧
    ChangeDepthState.execute
      { targetDepth := 36, threshold := 1, depth_current := 0,
        has_reset := true, depth := none } = some (DepthOutcome.reset, []) ∧
    ((RotateYawState.execute
      { yaw_target := 0, yaw_variance := 1, yaw_current := 2,
        has_reset := true }).1 = YawOutcome.reset) ∧
    ResetState.execute {} = ResetOutcome.restart := by
  obtain ⟨h1, h2, h3, -, -, -, -, -, -, -, h11, -⟩ := reset_routes_to_start
  exact ⟨h1 _ rfl, h2 _ rfl, h3 _ rfl, h11 {}⟩

/-- C10: the thrust clamp is idempotent, and at either saturation bound a
further same-direction request on an applying tick (counter a multiple of
200) leaves the stored thrust at the bound while still publishing the
unchanged clamped value. -/
theorem thrust_saturation_absorbing :
    (∀ x : ℤ, TrackObjectState.clampThrust (TrackObjectState.clampThrust x) =
      TrackObjectState.clampThrust x) ∧
    (∀ (s : TrackObjectState) (a : ℤ), s.timer % 200 = 0 →
      s.forward_thrust = MAX_FORWARD_THRUST → 0 ≤ a →
      s.change_forward_thrust a =
        ({ s with forward_thrust := MAX_FORWARD_THRUST },
          [Cmd.thrust MAX_FORWARD_THRUST])) ∧
    (∀ (s : TrackObjectState) (a : ℤ), s.timer % 200 = 0 →
      s.forward_thrust = -MAX_FORWARD_THRUST → a ≤ 0 →
      s.change_forward_thrust a =
        ({ s with forward_thrust := -MAX_FORWARD_THRUST },
          [Cmd.thrust (-MAX_FORWARD_THRUST)])) := by
  refine ⟨?_, ?_, ?_⟩
  · intro x
    unfold TrackObjectState.clampThrust MAX_FORWARD_THRUST
    split_ifs <;> omega
  · intro s a h1 h2 h3
    unfold TrackObjectState.change_forward_thrust
    rw [if_neg (by omega)]
    simp only [h2, clampThrust_of_ge a h3]
  · intro s a h1 h2 h3
    unfold TrackObjectState.change_forward_thrust
    rw [if_neg (by omega)]
    simp only [h2, clampThrust_of_le a h3]

/-- Witness for C10 at `forward_thrust = ±280`, `timer = 200`, requests `±1`. -/
theorem thrust_saturation_absorbing_witness :
    TrackObjectState.clampThrust (TrackObjectState.clampThrust 300) =
      TrackObjectState.clampThrust 300 ∧
    TrackObjectState.change_forward_thrust
      { yoffset := 0, timer := 200, object_x := 0, object_y := 0,
        object_area := 0, yaw_current := 0, depth_current := 0,
        forward_thrust := 280, has_reset := false } 1 =
      ({ yoffset := 0, timer := 200, object_x := 0, object_y := 0,
         object_area := 0, yaw_current := 0, depth_current := 0,
         forward_thrust := 280, has_reset := false }, [Cmd.thrust 280]) ∧
    TrackObjectState.change_forward_thrust
      { yoffset := 0, timer := 200, object_x := 0, object_y := 0,
        object_area := 0, yaw_current := 0, depth_current := 0,
        forward_thrust := -280, has_reset := false } (-1) =
      ({ yoffset := 0, timer := 200, object_x := 0, object_y := 0,
         object_area := 0, yaw_current := 0, depth_current := 0,
         forward_thrust := -280, has_reset := false }, [Cmd.thrust (-280)]) := by
  exact ⟨thrust_saturation_absorbing.1 300,
    thrust_saturation_absorbing.2.1 _ 1 rfl rfl (by decide),
    thrust_saturation_absorbing.2.2 _ (-1) rfl rfl (by decide)⟩

/-- C8: with the stub `isYawOnTarget`, a non-reset step of `RotateYawState`
always returns `notdone` (leaving the state untouched and publishing
nothing), so along any run of steps whose inputs never set the reset flag
every outcome is `notdone` — never `done`. -/
theorem rotateYaw_never_done_without_reset :
    (∀ s : RotateYawState, s.has_reset = false →
      s.execute = (YawOutcome.notdone, s, [])) ∧
    (∀ (s : RotateYawState) (inputs : List (ℚ × Bool)),
      (∀ p ∈ inputs, p.2 = false) → allNotdone (runYaw s inputs) = true) := by
  constructor
  · intro s h
    simp [RotateYawState.execute, RotateYawState.isYawOnTarget, h]
  · intro s inputs
    induction inputs generalizing s with
    | nil => intro _; rfl
    | cons p rest ih =>
        intro h
        obtain ⟨y, r⟩ := p
        have hr : r = false := h (y, r) (List.mem_cons_self _ _)
        subst hr
        have htail : ∀ q ∈ rest, q.2 = false := fun q hq =>
          h q (List.mem_cons_of_mem _ hq)
        simpa [runYaw, RotateYawState.execute, RotateYawState.isYawOnTarget,
          allNotdone] using ih _ htail

/-- Witness for C8: a two-step run with the reset flag never set. -/
theorem rotateYaw_never_done_without_reset_witness :
    (RotateYawState.init 0 1).execute =
      (YawOutcome.notdone, RotateYawState.init 0 1, []) ∧
    allNotdone (runYaw (RotateYawState.init 0 1) [(5, false), (6, false)]) = true := by
  exact ⟨rotateYaw_never_done_without_reset.1 _ rfl,
    rotateYaw_never_done_without_reset.2 _ _ (by decide)⟩

theorem change_forward_thrust_bounds (s : TrackObjectState) (a : ℤ)
    (h1 : -MAX_FORWARD_THRUST ≤ s.forward_thrust)
    (h2 : s.forward_thrust ≤ MAX_FORWARD_THRUST) :
    (-MAX_FORWARD_THRUST ≤ (s.change_forward_thrust a).1.forward_thrust ∧
      (s.change_forward_thrust a).1.forward_thrust ≤ MAX_FORWARD_THRUST) ∧
    thrustCmdsBounded (s.change_forward_thrust a).2 = true := by
  unfold TrackObjectState.change_forward_thrust
  split_ifs with h
  · exact ⟨⟨h1, h2⟩, rfl⟩
  · have hc := clampThrust_bounds (s.forward_thrust + a)
    refine ⟨⟨hc.1, hc.2⟩, ?_⟩
    simp [thrustCmdsBounded, hc.1, hc.2]

theorem runThrustRequests_bounds (reqs : List (ℕ × ℤ)) :
    ∀ s : TrackObjectState,
      -MAX_FORWARD_THRUST ≤ s.forward_thrust →
      s.forward_thrust ≤ MAX_FORWARD_THRUST →
      (-MAX_FORWARD_THRUST ≤ (runThrustRequests s reqs).1.forward_thrust ∧
        (runThrustRequests s reqs).1.forward_thrust ≤ MAX_FORWARD_THRUST) ∧
      thrustCmdsBounded (runThrustRequests s reqs).2 = true := by
  induction reqs with
  | nil => exact fun s h1 h2 => ⟨⟨h1, h2⟩, rfl⟩
  | cons r rest ih =>
      intro s h1 h2
      obtain ⟨t, a⟩ := r
      have hstep := change_forward_thrust_bounds { s with timer := t } a h1 h2
      have hrest := ih _ hstep.1.1 hstep.1.2
      refine ⟨hrest.1, ?_⟩
      simpa [runThrustRequests, thrustCmdsBounded_append] using
        And.intro hstep.2 hrest.2

/-- C2: along any sequence of thrust-change requests (each an increase or a
decrease by `FORWARD_THRUST_INCREASE`, at arbitrary tick-counter values),
starting from the freshly constructed state (`forward_thrust = 0`), the
stored `forward_thrust` and every published thrust command stay within
`[-MAX_FORWARD_THRUST, MAX_FORWARD_THRUST]`; since the request list is
arbitrary, the bound holds after every call. -/
theorem forward_thrust_bounded (yoffset : ℚ) (reqs : List (ℕ × ℤ))
    (hreqs : ∀ r ∈ reqs, r.2 = FORWARD_THRUST_INCREASE ∨
      r.2 = -FORWARD_THRUST_INCREASE) :
    (-MAX_FORWARD_THRUST ≤
        (runThrustRequests (TrackObjectState.init yoffset) reqs).1.forward_thrust ∧
      (runThrustRequests (TrackObjectState.init yoffset) reqs).1.forward_thrust ≤
        MAX_FORWARD_THRUST) ∧
    thrustCmdsBounded
      (runThrustRequests (TrackObjectState.init yoffset) reqs).2 = true := by
  exact runThrustRequests_bounds reqs (TrackObjectState.init yoffset)
    (by norm_num [TrackObjectState.init, MAX_FORWARD_THRUST])
    (by norm_num [TrackObjectState.init, MAX_FORWARD_THRUST])

/-- Witness for C2: a mixed request sequence, with an applying tick at
counter 200 and dropped ticks elsewhere. -/
theorem forward_thrust_bounded_witness :
    (-MAX_FORWARD_THRUST ≤
        (runThrustRequests (TrackObjectState.init 0)
          [(200, 1), (201, 1), (400, -1)]).1.forward_thrust ∧
      (runThrustRequests (TrackObjectState.init 0)
          [(200, 1), (201, 1), (400, -1)]).1.forward_thrust ≤
        MAX_FORWARD_THRUST) ∧
    thrustCmdsBounded
      (runThrustRequests (TrackObjectState.init 0)
        [(200, 1), (201, 1), (400, -1)]).2 = true := by
  exact forward_thrust_bounded 0 [(200, 1), (201, 1), (400, -1)] (by decide)

theorem adjust_yaw_no_thrust (s : TrackObjectState) :
    hasThrustCmd (s.adjust_yaw).2 = false := by
  unfold TrackObjectState.adjust_yaw
  split_ifs <;> rfl

theorem adjust_depth_no_thrust (s : TrackObjectState) :
    hasThrustCmd (s.adjust_depth).2 = false := by
  unfold TrackObjectState.adjust_depth
  split_ifs <;> rfl

theorem change_forward_thrust_skip (s : TrackObjectState) (a : ℤ)
    (h : s.timer % 200 ≠ 0) : s.change_forward_thrust a = (s, []) := by
  unfold TrackObjectState.change_forward_thrust
  rw [if_pos h]

theorem change_forward_thrust_timer (s : TrackObjectState) (a : ℤ) :
    (s.change_forward_thrust a).1.timer = s.timer := by
  unfold TrackObjectState.change_forward_thrust
  split_ifs <;> rfl

theorem adjust_position_no_thrust (s : TrackObjectState)
    (h : s.timer % 200 ≠ 0) : hasThrustCmd (s.adjust_position).2.2 = false := by
  unfold TrackObjectState.adjust_position
  split_ifs <;> simp [change_forward_thrust_skip _ _ h, hasThrustCmd]

theorem adjust_position_timer (s : TrackObjectState) :
    (s.adjust_position).2.1.timer = s.timer := by
  unfold TrackObjectState.adjust_position
  split_ifs <;> simp [change_forward_thrust_timer]

theorem execute_no_thrust_off_cycle (s : TrackObjectState)
    (h : (s.timer + 1) % 200 ≠ 0) : hasThrustCmd (s.execute).2.2 = false := by
  unfold TrackObjectState.execute
  dsimp only
  split_ifs with h1 h2 h3
  · rfl
  · simp [hasThrustCmd_append, adjust_yaw_no_thrust, adjust_depth_no_thrust]
    exact adjust_position_no_thrust _ h
  · simp [hasThrustCmd_append, adjust_yaw_no_thrust, adjust_depth_no_thrust]
    exact adjust_position_no_thrust _ h
  · simp [hasThrustCmd_append, adjust_yaw_no_thrust, adjust_depth_no_thrust]

theorem execute_timer_notcompleted (s : TrackObjectState)
    (h : (s.execute).1 = TrackOutcome.notcompleted) :
    (s.execute).2.1.timer = s.timer + 1 := by
  unfold TrackObjectState.execute at *
  dsimp only at h ⊢
  split_ifs at h ⊢ <;> simp_all [adjust_position_timer]

theorem runTrack_fst_cons (s : TrackObjectState) (i : SensorInput)
    (l : List SensorInput) :
    (runTrack s (i :: l)).1 = (runTrack ((s.setInput i).execute).2.1 l).1 := by
  simp [runTrack]

/-- C4: thrust changes are gated on the tick counter.  A
`change_forward_thrust` call with the counter off a multiple of 200 changes
nothing and publishes nothing; a whole `execute` tick whose (incremented)
counter is off a multiple of 200 publishes no thrust command even when a
change is requested; a `notcompleted` tick still increments the counter; and
along any run of ticks whose counter values are all off multiples of 200, no
thrust command is published at all. -/
theorem thrust_rate_limited :
    (∀ (s : TrackObjectState) (a : ℤ), s.timer % 200 ≠ 0 →
      s.change_forward_thrust a = (s, [])) ∧
    (∀ s : TrackObjectState, (s.timer + 1) % 200 ≠ 0 →
      hasThrustCmd (s.execute).2.2 = false) ∧
    (∀ s : TrackObjectState, (s.execute).1 = TrackOutcome.notcompleted →
      (s.execute).2.1.timer = s.timer + 1) ∧
    (∀ (s : TrackObjectState) (inputs : List SensorInput),
      (∀ k, k < inputs.length →
        ((runTrack s (inputs.take k)).1.timer + 1) % 200 ≠ 0) →
      hasThrustCmd (runTrack s inputs).2 = false) := by
  refine ⟨change_forward_thrust_skip, execute_no_thrust_off_cycle,
    execute_timer_notcompleted, ?_⟩
  intro s inputs
  induction inputs generalizing s with
  | nil => intro _; rfl
  | cons i rest ih =>
      intro h
      have h0 : (s.timer + 1) % 200 ≠ 0 := by
        have := h 0 (by simp)
        simpa [runTrack] using this
      have htail : ∀ k, k < rest.length →
          ((runTrack ((s.setInput i).execute).2.1 (rest.take k)).1.timer + 1) %
            200 ≠ 0 := by
        intro k hk
        have := h (k + 1) (by simpa using Nat.succ_lt_succ hk)
        simpa [List.take_succ_cons, runTrack_fst_cons] using this
      have hhead : hasThrustCmd ((s.setInput i).execute).2.2 = false :=
        execute_no_thrust_off_cycle _ h0
      simp only [runTrack, hasThrustCmd_append, hhead, Bool.false_or]
      exact ih _ htail

/-- Witness for C4: a dropped request at counter 3, an off-cycle first tick
of a fresh state, a counter increment on a `notcompleted` tick, and a
two-tick run with counters 1 and 2. -/
theorem thrust_rate_limited_witness :
    TrackObjectState.change_forward_thrust
      { yoffset := 0, timer := 3, object_x := 0, object_y := 0,
        object_area := 0, yaw_current := 0, depth_current := 0,
        forward_thrust := 0, has_reset := false } 1 =
      ({ yoffset := 0, timer := 3, object_x := 0, object_y := 0,
         object_area := 0, yaw_current := 0, depth_current := 0,
         forward_thrust := 0, has_reset := false }, []) ∧
    hasThrustCmd ((TrackObjectState.init 0).execute).2.2 = false ∧
    ((TrackObjectState.init 0).execute).2.1.timer =
      (TrackObjectState.init 0).timer + 1 ∧
    hasThrustCmd
      (runTrack (TrackObjectState.init 0)
        [{ object_x := 0, object_y := 0, object_area := 0, yaw_current := 0,
           depth_current := 0, has_reset := false },
         { object_x := 0, object_y := 0, object_area := 0, yaw_current := 0,
           depth_current := 0, has_reset := false }]).2 = false := by
  refine ⟨thrust_rate_limited.1 _ 1 (by decide),
    thrust_rate_limited.2.1 _ (by decide),
    thrust_rate_limited.2.2.1 _ ?_,
    thrust_rate_limited.2.2.2 _ _ ?_⟩
  · norm_num [TrackObjectState.execute, TrackObjectState.init,
      TrackObjectState.adjust_yaw, TrackObjectState.adjust_depth,
      CAMERA_WIDTH, CENTER_PADDING_X]
  · intro k hk
    simp only [List.length_cons, List.length_nil] at hk
    interval_cases k <;>
      norm_num [runTrack, TrackObjectState.execute, TrackObjectState.init,
        TrackObjectState.setInput, TrackObjectState.adjust_yaw,
        TrackObjectState.adjust_depth, CAMERA_WIDTH, CENTER_PADDING_X]

theorem adjust_yaw_timer (s : TrackObjectState) (t : ℕ) :
    TrackObjectState.adjust_yaw { s with timer := t } = s.adjust_yaw := rfl

theorem adjust_depth_timer (s : TrackObjectState) (t : ℕ) :
    TrackObjectState.adjust_depth { s with timer := t } = s.adjust_depth := rfl

theorem adjust_position_fst_timer (s : TrackObjectState) (t : ℕ) :
    (TrackObjectState.adjust_position { s with timer := t }).1 =
      (s.adjust_position).1 := by
  unfold TrackObjectState.adjust_position
  dsimp only
  split_ifs <;> rfl

theorem adjust_position_resetValues (s : TrackObjectState) :
    (s.adjust_position).2.1.resetValues = s.resetValues := by
  unfold TrackObjectState.adjust_position TrackObjectState.change_forward_thrust
  split_ifs <;> rfl

/-- C3: on a non-reset tick, `execute` returns `completed` exactly when the
horizontal axis (`adjust_yaw`), the vertical axis (`adjust_depth`) and the
distance axis (`adjust_position`) are all satisfied on that tick; on such a
tick every mutable field of the returned state is zero; and every other
non-reset tick returns `notcompleted`. -/
theorem trackExecute_spec (s : TrackObjectState) (h : s.has_reset = false) :
    ((s.execute).1 = TrackOutcome.completed ↔
      ((s.adjust_yaw).1 = true ∧ (s.adjust_depth).1 = true ∧
        (s.adjust_position).1 = true)) ∧
    ((s.execute).1 = TrackOutcome.completed →
      ((s.execute).2.1.object_x = 0 ∧ (s.execute).2.1.object_y = 0 ∧
       (s.execute).2.1.object_area = 0 ∧ (s.execute).2.1.yaw_current = 0 ∧
       (s.execute).2.1.depth_current = 0 ∧
       (s.execute).2.1.forward_thrust = 0 ∧
       (s.execute).2.1.has_reset = false ∧ (s.execute).2.1.timer = 0)) ∧
    ((s.execute).1 ≠ TrackOutcome.completed →
      (s.execute).1 = TrackOutcome.notcompleted) := by
  unfold TrackObjectState.execute
  dsimp only
  rw [if_neg (by simp [h]), adjust_yaw_timer, adjust_depth_timer,
    adjust_position_fst_timer]
  by_cases hx : (s.adjust_yaw).1 = true <;>
    by_cases hy : (s.adjust_depth).1 = true <;>
      by_cases ha : (s.adjust_position).1 = true <;>
        simp_all [TrackObjectState.resetValues]

/-- Witness for C3: a non-reset tick with the object centered on both axes
(`x = 200`, `y = 150`, offset 0) and in the distance band
(area `104400`, ratio `0.87`). -/
theorem trackExecute_spec_witness :
    ((TrackObjectState.execute
        { yoffset := 0, timer := 0, object_x := 200, object_y := 150,
          object_area := 104400, yaw_current := 1, depth_current := 2,
          forward_thrust := 3, has_reset := false }).1 = TrackOutcome.completed ↔
      ((TrackObjectState.adjust_yaw
          { yoffset := 0, timer := 0, object_x := 200, object_y := 150,
            object_area := 104400, yaw_current := 1, depth_current := 2,
            forward_thrust := 3, has_reset := false }).1 = true ∧
        (TrackObjectState.adjust_depth
          { yoffset := 0, timer := 0, object_x := 200, object_y := 150,
            object_area := 104400, yaw_current := 1, depth_current := 2,
            forward_thrust := 3, has_reset := false }).1 = true ∧
        (TrackObjectState.adjust_position
          { yoffset := 0, timer := 0, object_x := 200, object_y := 150,
            object_area := 104400, yaw_current := 1, depth_current := 2,
            forward_thrust := 3, has_reset := false }).1 = true)) ∧
    ((TrackObjectState.execute
        { yoffset := 0, timer := 0, object_x := 200, object_y := 150,
          object_area := 104400, yaw_current := 1, depth_current := 2,
          forward_thrust := 3, has_reset := false }).1 = TrackOutcome.completed →
      ((TrackObjectState.execute
          { yoffset := 0, timer := 0, object_x := 200, object_y := 150,
            object_area := 104400, yaw_current := 1, depth_current := 2,
            forward_thrust := 3, has_reset := false }).2.1.object_x = 0 ∧
       (TrackObjectState.execute
          { yoffset := 0, timer := 0, object_x := 200, object_y := 150,
            object_area := 104400, yaw_current := 1, depth_current := 2,
            forward_thrust := 3, has_reset := false }).2.1.object_y = 0 ∧
       (TrackObjectState.execute
          { yoffset := 0, timer := 0, object_x := 200, object_y := 150,
            object_area := 104400, yaw_current := 1, depth_current := 2,
            forward_thrust := 3, has_reset := false }).2.1.object_area = 0 ∧
       (TrackObjectState.execute
          { yoffset := 0, timer := 0, object_x := 200, object_y := 150,
            object_area := 104400, yaw_current := 1, depth_current := 2,
            forward_thrust := 3, has_reset := false }).2.1.yaw_current = 0 ∧
       (TrackObjectState.execute
          { yoffset := 0, timer := 0, object_x := 200, object_y := 150,
            object_area := 104400, yaw_current := 1, depth_current := 2,
            forward_thrust := 3, has_reset := false }).2.1.depth_current = 0 ∧
       (TrackObjectState.execute
          { yoffset := 0, timer := 0, object_x := 200, object_y := 150,
            object_area := 104400, yaw_current := 1, depth_current := 2,
            forward_thrust := 3, has_reset := false }).2.1.forward_thrust = 0 ∧
       (TrackObjectState.execute
          { yoffset := 0, timer := 0, object_x := 200, object_y := 150,
            object_area := 104400, yaw_current := 1, depth_current := 2,
            forward_thrust := 3, has_reset := false }).2.1.has_reset = false ∧
       (TrackObjectState.execute
          { yoffset := 0, timer := 0, object_x := 200, object_y := 150,
            object_area := 104400, yaw_current := 1, depth_current := 2,
            forward_thrust := 3, has_reset := false }).2.1.timer = 0)) ∧
    ((TrackObjectState.execute
        { yoffset := 0, timer := 0, object_x := 200, object_y := 150,
          object_area := 104400, yaw_current := 1, depth_current := 2,
          forward_thrust := 3, has_reset := false }).1 ≠ TrackOutcome.completed →
      (TrackObjectState.execute
        { yoffset := 0, timer := 0, object_x := 200, object_y := 150,
          object_area := 104400, yaw_current := 1, depth_current := 2,
          forward_thrust := 3, has_reset := false }).1 =
        TrackOutcome.notcompleted) := by
  exact trackExecute_spec _ rfl

/-- C5: the distance axis runs only on ticks where both the horizontal and
vertical axes are centered — otherwise the tick publishes no thrust command
and leaves `forward_thrust` untouched — and `adjust_position` at area ratio
`0.80` requests a thrust increase, at `0.95` a thrust decrease, and at `0.87`
issues nothing and reports the distance satisfied. -/
theorem distance_axis_gating :
    (∀ s : TrackObjectState, s.has_reset = false →
      ((s.adjust_yaw).1 && (s.adjust_depth).1) = false →
      hasThrustCmd (s.execute).2.2 = false ∧
        (s.execute).2.1.forward_thrust = s.forward_thrust) ∧
    (∀ s : TrackObjectState,
      s.object_area / (CAMERA_WIDTH*CAMERA_HEIGHT) = 80/100 →
      s.adjust_position =
        (false, s.change_forward_thrust FORWARD_THRUST_INCREASE)) ∧
    (∀ s : TrackObjectState,
      s.object_area / (CAMERA_WIDTH*CAMERA_HEIGHT) = 95/100 →
      s.adjust_position =
        (false, s.change_forward_thrust (-FORWARD_THRUST_INCREASE))) ∧
    (∀ s : TrackObjectState,
      s.object_area / (CAMERA_WIDTH*CAMERA_HEIGHT) = 87/100 →
      s.adjust_position = (true, s, [])) := by
  refine ⟨?_, ?_, ?_, ?_⟩
  · intro s h hxy
    unfold TrackObjectState.execute
    dsimp only
    rw [if_neg (by simp [h]), adjust_yaw_timer, adjust_depth_timer,
      if_neg (by simp [hxy])]
    exact ⟨by simp [hasThrustCmd_append, adjust_yaw_no_thrust,
      adjust_depth_no_thrust], rfl⟩
  · intro s h
    unfold TrackObjectState.adjust_position
    rw [h, if_pos (by norm_num [AREA_THRESHOLD_LOW])]
  · intro s h
    unfold TrackObjectState.adjust_position
    rw [h, if_neg (by norm_num [AREA_THRESHOLD_LOW]),
      if_pos (by norm_num [AREA_THRESHOLD_HIGH])]
  · intro s h
    unfold TrackObjectState.adjust_position
    rw [h, if_neg (by norm_num [AREA_THRESHOLD_LOW]),
      if_neg (by norm_num [AREA_THRESHOLD_HIGH])]

/-- Witness for C5: an off-center tick (`x = 300`) and the three area ratios
`0.80` (area 96000), `0.95` (area 114000) and `0.87` (area 104400). -/
theorem distance_axis_gating_witness :
    (hasThrustCmd
        ((TrackObjectState.execute
          { yoffset := 0, timer := 0, object_x := 300, object_y := 150,
            object_area := 96000, yaw_current := 0, depth_current := 0,
            forward_thrust := 7, has_reset := false })).2.2 = false ∧
      ((TrackObjectState.execute
          { yoffset := 0, timer := 0, object_x := 300, object_y := 150,
            object_area := 96000, yaw_current := 0, depth_current := 0,
            forward_thrust := 7, has_reset := false })).2.1.forward_thrust = 7) ∧
    TrackObjectState.adjust_position
      { yoffset := 0, timer := 0, object_x := 200, object_y := 150,
        object_area := 96000, yaw_current := 0, depth_current := 0,
        forward_thrust := 0, has_reset := false } =
      (false, TrackObjectState.change_forward_thrust
        { yoffset := 0, timer := 0, object_x := 200, object_y := 150,
          object_area := 96000, yaw_current := 0, depth_current := 0,
          forward_thrust := 0, has_reset := false } FORWARD_THRUST_INCREASE) ∧
    TrackObjectState.adjust_position
      { yoffset := 0, timer := 0, object_x := 200, object_y := 150,
        object_area := 114000, yaw_current := 0, depth_current := 0,
        forward_thrust := 0, has_reset := false } =
      (false, TrackObjectState.change_forward_thrust
        { yoffset := 0, timer := 0, object_x := 200, object_y := 150,
          object_area := 114000, yaw_current := 0, depth_current := 0,
          forward_thrust := 0, has_reset := false } (-FORWARD_THRUST_INCREASE)) ∧
    TrackObjectState.adjust_position
      { yoffset := 0, timer := 0, object_x := 200, object_y := 150,
        object_area := 104400, yaw_current := 0, depth_current := 0,
        forward_thrust := 0, has_reset := false } =
      (true,
        { yoffset := 0, timer := 0, object_x := 200, object_y := 150,
          object_area := 104400, yaw_current := 0, depth_current := 0,
          forward_thrust := 0, has_reset := false }, []) := by
  refine ⟨distance_axis_gating.1 _ rfl ?_, distance_axis_gating.2.1 _ ?_,
    distance_axis_gating.2.2.1 _ ?_, distance_axis_gating.2.2.2 _ ?_⟩
  · norm_num [TrackObjectState.adjust_yaw, CAMERA_WIDTH, CENTER_PADDING_X]
  · norm_num [CAMERA_WIDTH, CAMERA_HEIGHT]
  · norm_num [CAMERA_WIDTH, CAMERA_HEIGHT]
  · norm_num [CAMERA_WIDTH, CAMERA_HEIGHT]
